import Mathlib

/-!
Verification development for the porraza-frontend repository.

It embeds, as executable Lean definitions:
* the knockout-prediction form draft state, its derived visibility flags,
  its `isFormIncomplete` submit gate and the three reset effects
  (`knockout-match-dialog`, component `MatchContent`);
* the submit handler's observable effects (`onSubmit`);
* the bracket display winner lookup (`getMatchWinner` in the knockout
  bracket component);
* the route guard (`proxy.ts`): locale stripping, route classification,
  the dual-cookie authentication check and the redirect decision;
* the predictions-page tab gating (`predictions-page-content`).

JavaScript optional numeric fields (`number | undefined | null`, with
non-numeric input mapped to `undefined`/`null` by the form's `setValueAs`)
are embedded as `Option Int`, `none` standing for the absent /
non-numeric case.  JavaScript numbers that reach the validation logic are
always integers here (score inputs with step 1), so `Int` is the carrier.
-/

/-- The penalty-shootout winner selector: the form only ever stores
`"home"`, `"away"` or `null`. -/
inductive PenaltiesWinner where
  | home
  | away
  deriving DecidableEq

/-- The knockout prediction form draft: the five watched fields of
`MatchContent` (`homeScore`, `awayScore`, `homeScoreET`, `awayScoreET`,
`penaltiesWinner`).  `none` is JavaScript `undefined`/`null`/non-numeric. -/
structure Draft where
  homeScore : Option Int
  awayScore : Option Int
  homeScoreET : Option Int
  awayScoreET : Option Int
  penaltiesWinner : Option PenaltiesWinner
  deriving DecidableEq

/-- `isValidNumber(val)`: `typeof val === "number" && !isNaN(val)`.
In the `Option Int` embedding this is exactly presence. -/
def isValidNumber (v : Option Int) : Bool :=
  v.isSome

/-- `hasValidRegularTimeScores`: both 90-minute scores are valid numbers. -/
def hasValidRegularTimeScores (d : Draft) : Bool :=
  isValidNumber d.homeScore && isValidNumber d.awayScore

/-- `isTied`: valid regular-time scores and `homeScore === awayScore`. -/
def isTied (d : Draft) : Bool :=
  hasValidRegularTimeScores d && d.homeScore == d.awayScore

/-- `hasValidETScores`: both extra-time scores are valid numbers. -/
def hasValidETScores (d : Draft) : Bool :=
  isValidNumber d.homeScoreET && isValidNumber d.awayScoreET

/-- `isTiedInET`: valid extra-time scores and `homeScoreET === awayScoreET`. -/
def isTiedInET (d : Draft) : Bool :=
  hasValidETScores d && d.homeScoreET == d.awayScoreET

/-- `showPenalties = isTied && isTiedInET`: the render guard of the
penalty-winner selector. -/
def showPenalties (d : Draft) : Bool :=
  isTied d && isTiedInET d

/-- The render guard of the extra-time inputs: the JSX renders them under
`{isTied && ...}`. -/
def showExtraTimeFields (d : Draft) : Bool :=
  isTied d

/-- `isFormIncomplete`: the submit-disabling check, rule by rule.
Rules 2-4 sit inside the `if (isTied)` block of the source and rule 5
inside `if (!isTied)`; the source's early `return true`s become nested
`if`s.  The `getD 0` defaults are never chosen: each comparison is
guarded by the corresponding validity check. -/
def isFormIncomplete (d : Draft) : Bool :=
  if !hasValidRegularTimeScores d then
    true
  else if isTied d then
    if !hasValidETScores d then
      true
    else if d.homeScoreET.getD 0 < d.homeScore.getD 0
        || d.awayScoreET.getD 0 < d.awayScore.getD 0 then
      true
    else if isTiedInET d && d.penaltiesWinner.isNone then
      true
    else if !isTiedInET d && !d.penaltiesWinner.isNone then
      true
    else
      false
  else if !d.homeScoreET.isNone || !d.awayScoreET.isNone
      || !d.penaltiesWinner.isNone then
    true
  else
    false

/-- First reset effect: when the regular-time scores are valid and no
longer tied, clear extra time and penalties. -/
def resetWhenNotTied (d : Draft) : Draft :=
  if hasValidRegularTimeScores d && !isTied d then
    { d with homeScoreET := none, awayScoreET := none, penaltiesWinner := none }
  else d

/-- Second reset effect: when valid extra-time scores resolve the tie,
clear penalties. -/
def resetWhenETResolved (d : Draft) : Draft :=
  if hasValidETScores d && !isTiedInET d then
    { d with penaltiesWinner := none }
  else d

/-- Third reset effect ("additional safety"): when the penalty selector is
not shown but a penalty winner is set, clear it. -/
def clearPenaltiesSafety (d : Draft) : Draft :=
  if !showPenalties d && !d.penaltiesWinner.isNone then
    { d with penaltiesWinner := none }
  else d

/-- One recompute of the draft: the three `useEffect` reset effects,
applied in source order.  Each effect only clears fields, and the guards
of the later effects do not depend on the fields the earlier ones clear
in a way that changes the outcome, so one sequential pass equals the
React fixpoint of re-running the effects until the watched values are
stable (checked case by case in the lemmas below). -/
def recompute (d : Draft) : Draft :=
  clearPenaltiesSafety (resetWhenETResolved (resetWhenNotTied d))

/-- Spec state B: both regular-time scores are valid numbers and unequal,
with extra-time and penalty fields null. -/
def StateB (d : Draft) : Prop :=
  (∃ h a, d.homeScore = some h ∧ d.awayScore = some a ∧ h ≠ a) ∧
    d.homeScoreET = none ∧ d.awayScoreET = none ∧ d.penaltiesWinner = none

/-- Spec state D: regular time tied, both extra-time scores valid, each at
least its regular-time score, unequal, penalty winner null. -/
def StateD (d : Draft) : Prop :=
  ∃ s hET aET, d.homeScore = some s ∧ d.awayScore = some s ∧
    d.homeScoreET = some hET ∧ d.awayScoreET = some aET ∧
    s ≤ hET ∧ s ≤ aET ∧ hET ≠ aET ∧ d.penaltiesWinner = none

/-- Spec state F: regular time and extra time both tied, extra-time scores
honoring the cumulative ordering, and a penalty winner selected. -/
def StateF (d : Draft) : Prop :=
  ∃ s t w, d.homeScore = some s ∧ d.awayScore = some s ∧
    d.homeScoreET = some t ∧ d.awayScoreET = some t ∧
    s ≤ t ∧ d.penaltiesWinner = some w

example : isFormIncomplete ⟨some 2, some 0, none, none, none⟩ = false := by decide

example : isFormIncomplete ⟨some 1, some 1, none, none, none⟩ = true := by decide

example : isFormIncomplete ⟨some 1, some 1, some 1, some 2, none⟩ = false := by decide

example : isFormIncomplete ⟨some 1, some 1, some 0, some 2, none⟩ = true := by decide

example : isFormIncomplete ⟨some 1, some 1, some 2, some 2, some .home⟩ = false := by decide

example : isFormIncomplete ⟨some 2, some 0, some 3, some 3, none⟩ = true := by decide

example : recompute ⟨some 2, some 0, some 3, some 3, some .home⟩ =
    ⟨some 2, some 0, none, none, none⟩ := by decide

example : recompute ⟨none, some 1, some 2, some 2, some .home⟩ =
    ⟨none, some 1, some 2, some 2, none⟩ := by decide

/-- C1: submission is enabled (`isFormIncomplete` is `false`) exactly on
the three decided states B, D, F. -/
theorem submit_enabled_iff_decided_state (d : Draft) :
    isFormIncomplete d = false ↔ (StateB d ∨ StateD d ∨ StateF d) := by
  obtain ⟨h, a, he, ae, p⟩ := d
  simp only [isFormIncomplete, hasValidRegularTimeScores, isTied, hasValidETScores, isTiedInET,
    isValidNumber, StateB, StateD, StateF]
  cases h <;> cases a <;> cases he <;> cases ae <;> cases p <;>
    simp_all <;> omega

/-- C2 counterexample: with the home regular-time score cleared
(non-numeric), the regular-time tie condition is false, yet the recompute
leaves the previously entered extra-time scores in place (only the
penalty winner is wiped, by the safety effect). -/
theorem reset_cascade_counterexample :
    isTied ⟨none, some 1, some 2, some 2, some PenaltiesWinner.home⟩ = false ∧
    (recompute ⟨none, some 1, some 2, some 2, some PenaltiesWinner.home⟩).homeScoreET = some 2 ∧
    (recompute ⟨none, some 1, some 2, some 2, some PenaltiesWinner.home⟩).awayScoreET = some 2 := by
  decide

/-- C2 amended: on every recompute, the extra-time scores and the penalty
winner are reset when both regular-time scores are valid numbers and
unequal; the penalty winner alone is additionally reset whenever the
regular-time tie condition or the extra-time tie condition is false in
any way (scores cleared or non-numeric included). -/
theorem reset_cascade_amended (d : Draft) :
    (hasValidRegularTimeScores d = true → isTied d = false →
      (recompute d).homeScoreET = none ∧ (recompute d).awayScoreET = none ∧
        (recompute d).penaltiesWinner = none) ∧
    (isTied d = false → (recompute d).penaltiesWinner = none) ∧
    (isTiedInET d = false → (recompute d).penaltiesWinner = none) := by
  obtain ⟨h, a, he, ae, p⟩ := d
  simp only [recompute, clearPenaltiesSafety, resetWhenETResolved, resetWhenNotTied,
    showPenalties, isTied, isTiedInET, hasValidRegularTimeScores, hasValidETScores,
    isValidNumber]
  cases h <;> cases a <;> cases he <;> cases ae <;> cases p <;>
    simp_all <;> split_ifs <;> simp_all

/-- C2 amended, witness: a decisive 1-2 regular-time edit wipes stale
extra-time scores and penalty winner. -/
theorem reset_cascade_amended_witness :
    hasValidRegularTimeScores ⟨some 1, some 2, some 3, some 3, some PenaltiesWinner.home⟩ = true ∧
    isTied ⟨some 1, some 2, some 3, some 3, some PenaltiesWinner.home⟩ = false ∧
    (recompute ⟨some 1, some 2, some 3, some 3, some PenaltiesWinner.home⟩).homeScoreET = none ∧
    (recompute ⟨some 1, some 2, some 3, some 3, some PenaltiesWinner.home⟩).penaltiesWinner = none :=
  ⟨by decide, by decide,
    ((reset_cascade_amended _).1 (by decide) (by decide)).1,
    ((reset_cascade_amended _).1 (by decide) (by decide)).2.2⟩

/-- C4: with regular time tied and both extra-time scores entered, an
extra-time score strictly below its regular-time score blocks submission. -/
theorem et_below_regular_blocks_submit (d : Draft) (s hET aET : Int)
    (hh : d.homeScore = some s) (ha : d.awayScore = some s)
    (hhe : d.homeScoreET = some hET) (hae : d.awayScoreET = some aET)
    (hlt : hET < s ∨ aET < s) :
    isFormIncomplete d = true := by
  obtain ⟨h, a, he, ae, p⟩ := d
  simp only at hh ha hhe hae
  subst hh ha hhe hae
  simp only [isFormIncomplete, hasValidRegularTimeScores, isTied, hasValidETScores, isTiedInET,
    isValidNumber]
  simp_all
  try omega

/-- C4 witness: a tied 2-2 with an extra-time score of 1 for home blocks
submission. -/
theorem et_below_regular_blocks_submit_witness :
    isFormIncomplete ⟨some 2, some 2, some 1, some 3, none⟩ = true :=
  et_below_regular_blocks_submit _ 2 1 3 rfl rfl rfl rfl (Or.inl (by decide))

/-- C5: the extra-time inputs render exactly when both regular-time scores
are valid and equal; the penalty selector renders exactly when the
extra-time scores are additionally valid and equal; at 2-0 neither ever
appears. -/
theorem field_visibility_rules (d : Draft) :
    (showExtraTimeFields d = true ↔ ∃ s, d.homeScore = some s ∧ d.awayScore = some s) ∧
    (showPenalties d = true ↔
      (∃ s, d.homeScore = some s ∧ d.awayScore = some s) ∧
        ∃ t, d.homeScoreET = some t ∧ d.awayScoreET = some t) ∧
    (d.homeScore = some 2 → d.awayScore = some 0 →
      showExtraTimeFields d = false ∧ showPenalties d = false) := by
  obtain ⟨h, a, he, ae, p⟩ := d
  simp only [showExtraTimeFields, showPenalties, isTied, isTiedInET,
    hasValidRegularTimeScores, hasValidETScores, isValidNumber]
  cases h <;> cases a <;> cases he <;> cases ae <;> simp_all <;> omega

/-- C5 witness: at 2-0, extra-time and penalty fields are hidden whatever
the stale extra-time and penalty values are. -/
theorem field_visibility_rules_witness :
    showExtraTimeFields ⟨some 2, some 0, some 3, some 3, some PenaltiesWinner.home⟩ = false ∧
    showPenalties ⟨some 2, some 0, some 3, some 3, some PenaltiesWinner.home⟩ = false :=
  (field_visibility_rules _).2.2 rfl rfl

/-- A parsed JavaScript/JSON value, as produced by `JSON.parse` on the
fallback auth cookie.  Objects are association lists keyed by field name. -/
inductive JsValue where
  | null
  | bool (b : Bool)
  | num (n : Int)
  | str (s : String)
  | arr (elems : List JsValue)
  | obj (fields : List (String × JsValue))

/-- JavaScript property access `v.k` on a parsed value: defined only on
objects, `undefined` (here `none`) everywhere else. -/
def jsField (v : JsValue) (k : String) : Option JsValue :=
  match v with
  | .obj fields => fields.lookup k
  | _ => none

/-- JavaScript truthiness of a value. -/
def jsTruthy : JsValue → Bool
  | .null => false
  | .bool b => b
  | .num n => n != 0
  | .str s => s != ""
  | .arr _ => true
  | .obj _ => true

/-- Truthiness of an optional-chaining result, `undefined` being falsy. -/
def jsTruthyOpt : Option JsValue → Bool
  | some v => jsTruthy v
  | none => false

/-- The chain `authState?.state?.<field>` from `isUserAuthenticated`. -/
def authStateField (authState : JsValue) (field : String) : Option JsValue :=
  (jsField authState "state").bind fun s => jsField s field

/-- The part of a `NextRequest` that the route guard reads.
`accessTokenCookie` is the `accessToken` cookie (value carried but never
inspected); `authStateCookie` is the `porraza-auth-state` cookie, with
`JSON.parse` on its value embedded as the carried `Option JsValue`
(`some none` = cookie present but its value is not valid JSON, so
`JSON.parse` throws and the `catch` branch runs).  `intlLocaleHeader` is
the `x-middleware-request-x-next-intl-locale` header of the i18n
middleware response. -/
structure NextRequest where
  pathname : String
  accessTokenCookie : Option String
  authStateCookie : Option (Option JsValue)
  intlLocaleHeader : Option String

/-- `isUserAuthenticated`: the `accessToken` cookie wins by mere presence;
otherwise the fallback cookie's JSON must hold truthy `state.userId` and
`state.accessToken`; a parse failure or no cookie yields `false`. -/
def isUserAuthenticated (req : NextRequest) : Bool :=
  match req.accessTokenCookie with
  | some _ => true
  | none =>
    match req.authStateCookie with
    | some parsed =>
      match parsed with
      | some authState =>
        jsTruthyOpt (authStateField authState "userId") &&
          jsTruthyOpt (authStateField authState "accessToken")
      | none => false
    | none => false

/-- Modelled from the spec: the i18n routing config (`./i18n/routing`) is
not under src; the spec names exactly two supported locales and the
proxy's regex names `en` and `es`.  The concrete default value is not
observable in any claim. -/
def defaultLocale : String := "es"

/-- `protectedRoutes` of `proxy.ts`. -/
def protectedRoutes : List String :=
  ["/dashboard", "/projects", "/analytics", "/settings", "/predictions",
   "/schedule", "/stadiums", "/teams", "/leagues", "/leaderboard", "/rules"]

/-- `authRoutes` of `proxy.ts`. -/
def authRoutes : List String := ["/login", "/signup"]

/-- JavaScript `s.startsWith(p)`, on the character lists (the paths and
route lists are ASCII, so code-unit and character indexing agree). -/
def strStartsWith (s p : String) : Bool :=
  p.data.isPrefixOf s.data

/-- JavaScript `s.slice(n)` / dropping `n` leading characters, on the
character list, for the same ASCII inputs. -/
def strDrop (s : String) (n : Nat) : String :=
  ⟨s.data.drop n⟩

/-- `pathname.replace(/^\/(en|es)/, "") || "/"`: drop a leading `/en` or
`/es` (the regex is unanchored on the right, so `/english` also loses its
first three characters), and an empty result falls back to `/`. -/
def stripLocale (pathname : String) : String :=
  let stripped :=
    if strStartsWith pathname "/en" then strDrop pathname 3
    else if strStartsWith pathname "/es" then strDrop pathname 3
    else pathname
  if stripped = "" then "/" else stripped

/-- `protectedRoutes.some((route) => pathnameWithoutLocale.startsWith(route))`. -/
def isProtectedRoute (path : String) : Bool :=
  protectedRoutes.any fun route => strStartsWith path route

/-- `authRoutes.some((route) => pathnameWithoutLocale.startsWith(route))`. -/
def isAuthRoute (path : String) : Bool :=
  authRoutes.any fun route => strStartsWith path route

/-- `response.headers.get(...) || routing.defaultLocale`: a missing or
empty header (empty strings are falsy) falls back to the default locale. -/
def resolveLocale (req : NextRequest) : String :=
  match req.intlLocaleHeader with
  | some l => if l = "" then defaultLocale else l
  | none => defaultLocale

/-- The observable outcome of the route guard: a redirect to
`/<locale>/login?from=<fromPath>`, a redirect to `/<locale>/dashboard`,
or the i18n-normalized response passed through unchanged. -/
inductive ProxyResult where
  | redirectLogin (locale : String) (fromPath : String)
  | redirectDashboard (locale : String)
  | passThrough
  deriving DecidableEq

/-- The `proxy` middleware decision. -/
def proxy (req : NextRequest) : ProxyResult :=
  let locale := resolveLocale req
  let pathnameWithoutLocale := stripLocale req.pathname
  let isAuthenticated := isUserAuthenticated req
  if isProtectedRoute pathnameWithoutLocale && !isAuthenticated then
    .redirectLogin locale req.pathname
  else if isAuthRoute pathnameWithoutLocale && isAuthenticated then
    .redirectDashboard locale
  else
    .passThrough

example : proxy ⟨"/en/dashboard", none, none, some "en"⟩ =
    .redirectLogin "en" "/en/dashboard" := by decide

example : proxy ⟨"/login", some "tok", none, some "en"⟩ =
    .redirectDashboard "en" := by decide

example : proxy ⟨"/en/about", none, none, some "en"⟩ = .passThrough := by decide

example : isUserAuthenticated ⟨"/x", none,
    some (some (.obj [("state", .obj [("userId", .str "u1"), ("accessToken", .str "t")])])),
    none⟩ = true := by decide

example : isUserAuthenticated ⟨"/x", none, some none, none⟩ = false := by decide

/-- C3: the route guard redirects unauthenticated requests for protected
paths to `/<locale>/login?from=<original path>`, redirects authenticated
requests for auth-only paths to `/<locale>/dashboard`, and otherwise
passes the i18n-normalized response through. -/
theorem route_guard_decision (req : NextRequest) :
    (isProtectedRoute (stripLocale req.pathname) = true →
      isUserAuthenticated req = false →
      proxy req = .redirectLogin (resolveLocale req) req.pathname) ∧
    (isAuthRoute (stripLocale req.pathname) = true →
      isUserAuthenticated req = true →
      proxy req = .redirectDashboard (resolveLocale req)) ∧
    (¬(isProtectedRoute (stripLocale req.pathname) = true ∧
        isUserAuthenticated req = false) →
     ¬(isAuthRoute (stripLocale req.pathname) = true ∧
        isUserAuthenticated req = true) →
      proxy req = .passThrough) := by
  cases hP : isProtectedRoute (stripLocale req.pathname) <;>
    cases hA : isUserAuthenticated req <;>
      cases hR : isAuthRoute (stripLocale req.pathname) <;>
        simp_all [proxy]

/-- C3 witness: an unauthenticated request for `/en/dashboard` is sent to
the English login page with the original path as return target. -/
theorem route_guard_decision_witness :
    isProtectedRoute (stripLocale "/en/dashboard") = true ∧
    isUserAuthenticated ⟨"/en/dashboard", none, none, some "en"⟩ = false ∧
    proxy ⟨"/en/dashboard", none, none, some "en"⟩ =
      .redirectLogin "en" "/en/dashboard" :=
  ⟨by decide, by decide,
    (route_guard_decision ⟨"/en/dashboard", none, none, some "en"⟩).1
      (by decide) (by decide)⟩

/-- C9: the authentication check accepts on mere presence of the
`accessToken` cookie; failing that, it accepts exactly when the fallback
cookie's JSON has truthy `state.userId` and `state.accessToken`, is
`false` on malformed JSON, and `false` with neither cookie. -/
theorem auth_check_cookie_order (req : NextRequest) :
    (∀ v, req.accessTokenCookie = some v → isUserAuthenticated req = true) ∧
    (req.accessTokenCookie = none →
      ∀ parsed, req.authStateCookie = some parsed →
        ((∀ j, parsed = some j →
          (isUserAuthenticated req = true ↔
            jsTruthyOpt (authStateField j "userId") = true ∧
            jsTruthyOpt (authStateField j "accessToken") = true)) ∧
         (parsed = none → isUserAuthenticated req = false))) ∧
    (req.accessTokenCookie = none → req.authStateCookie = none →
      isUserAuthenticated req = false) := by
  obtain ⟨path, tok, st, loc⟩ := req
  cases tok <;> cases st <;> simp_all [isUserAuthenticated]

/-- C9 witness: a malformed fallback cookie denies without error, a
well-formed one with truthy fields grants, and presence of the
access-token cookie grants outright. -/
theorem auth_check_cookie_order_witness :
    isUserAuthenticated ⟨"/x", none, some none, none⟩ = false ∧
    isUserAuthenticated ⟨"/x", none,
      some (some (.obj [("state",
        .obj [("userId", .str "u1"), ("accessToken", .str "t")])])), none⟩ = true ∧
    isUserAuthenticated ⟨"/x", some "anything", none, none⟩ = true :=
  ⟨(((auth_check_cookie_order ⟨"/x", none, some none, none⟩).2.1 rfl none rfl).2) rfl,
   ((((auth_check_cookie_order ⟨"/x", none,
        some (some (.obj [("state",
          .obj [("userId", .str "u1"), ("accessToken", .str "t")])])), none⟩).2.1
      rfl _ rfl).1) _ rfl).mpr ⟨by decide, by decide⟩,
   (auth_check_cookie_order ⟨"/x", some "anything", none, none⟩).1 "anything" rfl⟩

/-- A JavaScript rejection value in the submit handler's `catch`: either
an `Error` instance (which always carries a `message` string) or some
other thrown value. -/
inductive JsError where
  | errorInstance (message : String)
  | nonError
  deriving DecidableEq

/-- The outcome of awaiting the `onSave` callback. -/
inductive SaveOutcome where
  | resolves
  | rejects (error : JsError)
  deriving DecidableEq

/-- The observable effects of one run of the dialog's `onSubmit` handler. -/
structure SubmitEffects where
  errorToastDescription : Option String
  successToastShown : Bool
  saveCalled : Bool
  dialogClosed : Bool
  deriving DecidableEq

/-- The error-toast description of the missing-prediction guard. -/
def missingPredictionText : String :=
  "No se encontró la predicción. Intenta recargar la página."

/-- The generic fallback description for non-`Error` rejections. -/
def fallbackSaveErrorText : String := "No se pudo guardar la predicción"

/-- `onSubmit`: with no `predictionId`, toast an error and return before
calling `onSave`; otherwise call `onSave` and on success toast success
and close the dialog, while the `catch` toasts the rejection's message
(verbatim for `Error` instances, the generic text otherwise) and leaves
the dialog open. -/
def onSubmit (predictionId : Option String) (save : SaveOutcome) : SubmitEffects :=
  match predictionId with
  | none =>
    { errorToastDescription := some missingPredictionText
      successToastShown := false
      saveCalled := false
      dialogClosed := false }
  | some _ =>
    match save with
    | .resolves =>
      { errorToastDescription := none
        successToastShown := true
        saveCalled := true
        dialogClosed := true }
    | .rejects e =>
      { errorToastDescription :=
          some (match e with
            | .errorInstance m => m
            | .nonError => fallbackSaveErrorText)
        successToastShown := false
        saveCalled := true
        dialogClosed := false }

/-- C7: with no backing prediction identifier, submit aborts after the
error notice: no save call, no success notice, dialog left open. -/
theorem submit_without_prediction_id_aborts (save : SaveOutcome) :
    (onSubmit none save).errorToastDescription = some missingPredictionText ∧
    (onSubmit none save).saveCalled = false ∧
    (onSubmit none save).successToastShown = false ∧
    (onSubmit none save).dialogClosed = false := by
  simp [onSubmit]

/-- C8: a rejected save surfaces the `Error` message verbatim (generic
fallback for non-`Error` rejections), shows no success notice, and does
not close the dialog. -/
theorem submit_rejection_keeps_dialog_open (pid : String) (e : JsError) :
    (∀ m, e = .errorInstance m →
      (onSubmit (some pid) (.rejects e)).errorToastDescription = some m) ∧
    (e = .nonError →
      (onSubmit (some pid) (.rejects e)).errorToastDescription =
        some fallbackSaveErrorText) ∧
    (onSubmit (some pid) (.rejects e)).successToastShown = false ∧
    (onSubmit (some pid) (.rejects e)).dialogClosed = false := by
  cases e <;> simp [onSubmit]

/-- C8 witness: an `Error` rejection with message `boom` is surfaced
verbatim. -/
theorem submit_rejection_keeps_dialog_open_witness :
    (onSubmit (some "pred-1")
      (.rejects (.errorInstance "boom"))).errorToastDescription = some "boom" :=
  (submit_rejection_keeps_dialog_open "pred-1" (.errorInstance "boom")).1 "boom" rfl

/-- A user's stored match prediction as the bracket and predictions page
read it: `id` is the backing record id (nullable), the 90-minute scores
are required, the extra-time scores and penalty winner nullable. -/
structure UserMatchPrediction where
  id : Option String
  homeScore : Int
  awayScore : Int
  homeScoreET : Option Int
  awayScoreET : Option Int
  penaltiesWinner : Option PenaltiesWinner
  deriving DecidableEq

/-- The display winner of a match as the bracket styles it. -/
inductive MatchWinner where
  | home
  | away
  | draw
  deriving DecidableEq

/-- The cast `prediction.penaltiesWinner as "home" | "away"`. -/
def PenaltiesWinner.toMatchWinner : PenaltiesWinner → MatchWinner
  | .home => .home
  | .away => .away

/-- `getMatchWinner`: penalty winner first; else the extra-time comparison
when both extra-time scores are non-null (its tie is a draw right there);
else the regular-time comparison, tie giving a draw. -/
def getMatchWinner : Option UserMatchPrediction → Option MatchWinner
  | none => none
  | some prediction =>
    match prediction.penaltiesWinner with
    | some w => some w.toMatchWinner
    | none =>
      match prediction.homeScoreET, prediction.awayScoreET with
      | some homeET, some awayET =>
        if homeET > awayET then some .home
        else if awayET > homeET then some .away
        else some .draw
      | _, _ =>
        if prediction.homeScore > prediction.awayScore then some .home
        else if prediction.awayScore > prediction.homeScore then some .away
        else some .draw

example : getMatchWinner (some ⟨some "i", 1, 1, some 1, some 1, some .away⟩) =
    some .away := by decide

example : getMatchWinner (some ⟨none, 3, 0, some 1, some 1, none⟩) =
    some .draw := by decide

example : getMatchWinner (some ⟨none, 1, 1, some 1, some 2, none⟩) =
    some .away := by decide

example : getMatchWinner (some ⟨none, 2, 0, none, some 5, none⟩) =
    some .home := by decide

/-- C6: the winner lookup resolves in order penalty winner, extra-time
comparison (when both extra-time scores are present, a tie there being a
draw), then regular-time comparison, ties giving a draw. -/
theorem match_winner_resolution_order (p : UserMatchPrediction) :
    (∀ w, p.penaltiesWinner = some w →
      getMatchWinner (some p) = some w.toMatchWinner) ∧
    (p.penaltiesWinner = none →
      ∀ homeET awayET, p.homeScoreET = some homeET → p.awayScoreET = some awayET →
        (homeET > awayET → getMatchWinner (some p) = some .home) ∧
        (awayET > homeET → getMatchWinner (some p) = some .away) ∧
        (homeET = awayET → getMatchWinner (some p) = some .draw)) ∧
    (p.penaltiesWinner = none →
      (p.homeScoreET = none ∨ p.awayScoreET = none) →
        (p.homeScore > p.awayScore → getMatchWinner (some p) = some .home) ∧
        (p.awayScore > p.homeScore → getMatchWinner (some p) = some .away) ∧
        (p.homeScore = p.awayScore → getMatchWinner (some p) = some .draw)) := by
  obtain ⟨i, h, a, he, ae, pw⟩ := p
  cases pw <;> cases he <;> cases ae <;>
    simp_all [getMatchWinner] <;> omega

/-- C6 witness: a tied prediction with a home penalty winner resolves to
home. -/
theorem match_winner_resolution_order_witness :
    getMatchWinner (some ⟨some "i", 1, 1, some 2, some 2, some .home⟩) =
      some MatchWinner.home :=
  (match_winner_resolution_order ⟨some "i", 1, 1, some 2, some 2, some .home⟩).1
    PenaltiesWinner.home rfl

/-- A group-stage match as the predictions page reads it: only the nested
user prediction is inspected. -/
structure MatchWithPrediction where
  userPrediction : UserMatchPrediction
  deriving DecidableEq

/-- `matches.every((m) => m.userPrediction.id !== null)`. -/
def allGroupPredictionsCompleted (ms : List MatchWithPrediction) : Bool :=
  ms.all fun m => !m.userPrediction.id.isNone

/-- `matches.filter((m) => m.userPrediction.id !== null).length`. -/
def completedMatches (ms : List MatchWithPrediction) : Nat :=
  (ms.filter fun m => !m.userPrediction.id.isNone).length

/-- `matches.length`. -/
def totalMatches (ms : List MatchWithPrediction) : Nat :=
  ms.length

/-- A knockout-stage match as the page checks it for presence. -/
structure KnockoutRoundMatch where
  id : String
  deriving DecidableEq

/-- The knockouts payload: the page only inspects `roundOf32`. -/
structure Knockouts where
  roundOf32 : List KnockoutRoundMatch
  deriving DecidableEq

/-- `disabled={!allGroupPredictionsCompleted}` on the knockout tab. -/
def knockoutTabDisabled (ms : List MatchWithPrediction) : Bool :=
  !allGroupPredictionsCompleted ms

/-- `disabled={!allGroupPredictionsCompleted}` on the awards tab. -/
def awardsTabDisabled (ms : List MatchWithPrediction) : Bool :=
  !allGroupPredictionsCompleted ms

/-- What the knockout tab panel renders. -/
inductive KnockoutTabContent where
  | lockedProgress (completed total : Nat)
  | bracket
  | awaitingDraw
  deriving DecidableEq

/-- The knockout `TabsContent` body: locked placeholder with the progress
count while any group prediction lacks an id; else the bracket when the
knockouts payload has a non-empty round of 32; else the awaiting-draw
placeholder. -/
def knockoutTabContent (ms : List MatchWithPrediction)
    (knockouts : Option Knockouts) : KnockoutTabContent :=
  if !allGroupPredictionsCompleted ms then
    .lockedProgress (completedMatches ms) (totalMatches ms)
  else
    match knockouts with
    | some k => if k.roundOf32.length > 0 then .bracket else .awaitingDraw
    | none => .awaitingDraw

/-- C10: the knockout and awards tabs are disabled, and the knockout panel
shows the locked placeholder with the completed/total count instead of
the bracket, exactly when some group match's prediction has a null id;
the empty list counts as completed. -/
theorem knockout_gating_on_group_completion (ms : List MatchWithPrediction)
    (knockouts : Option Knockouts) :
    ((knockoutTabDisabled ms = true ∧ awardsTabDisabled ms = true) ↔
      ∃ m ∈ ms, m.userPrediction.id = none) ∧
    ((∃ m ∈ ms, m.userPrediction.id = none) →
      knockoutTabContent ms knockouts =
        .lockedProgress (completedMatches ms) (totalMatches ms)) ∧
    (knockoutTabDisabled [] = false ∧ awardsTabDisabled [] = false) := by
  refine ⟨?_, ?_, by decide⟩
  · simp [knockoutTabDisabled, awardsTabDisabled, allGroupPredictionsCompleted,
      List.all_eq_true, Option.isNone_iff_eq_none]
  · intro hx
    have : allGroupPredictionsCompleted ms = false := by
      simp [allGroupPredictionsCompleted, List.all_eq_true, Option.isNone_iff_eq_none]
      exact hx
    simp [knockoutTabContent, this]

/-- C10 witness: a single group match without a saved prediction id locks
the knockout panel at progress 0 of 1. -/
theorem knockout_gating_on_group_completion_witness :
    knockoutTabContent [⟨⟨none, 1, 0, none, none, none⟩⟩] none =
      .lockedProgress 0 1 :=
  (knockout_gating_on_group_completion [⟨⟨none, 1, 0, none, none, none⟩⟩] none).2.1
    ⟨⟨⟨none, 1, 0, none, none, none⟩⟩, by simp, rfl⟩
